import Mathlib

/-!
Verification model of the medical-doc-assistant browser client.

The embedding is a shallow translation of the two source files:
* `static/js` main script (the upload/analyze/persist/cleanup workflow:
  `uploadFile`, `analyzeText`, `uploadToDatabase`, `saveAnalysisToDatabase`,
  `saveTextAnalysisToDatabase`, `deleteAllRecords`), and
* `static/service-worker.js` (the fetch-routing logic of the two fetch
  listeners).

External effects (Supabase storage/table calls, the analysis API, timers)
are modelled by an explicit environment that fixes the outcome of each
external call; a run of an operation is then a pure function from the input,
the environment and the current remote-store state to a final state plus a
trace of the externally visible events, in the order the source performs
them.  JavaScript strings are modelled as Lean strings (one `Char` per code
unit), JavaScript truthiness of possibly-absent values by explicit helpers.
-/

namespace MedDoc

/-- JS `String.prototype.trim()`: drop leading and trailing whitespace. -/
def jsTrim (s : String) : String :=
  ⟨((s.data.dropWhile Char.isWhitespace).reverse.dropWhile Char.isWhitespace).reverse⟩

/-- JS `s.substring(0, n)`: the first `n` code units of `s`. -/
def jsSubstring (s : String) (n : Nat) : String :=
  ⟨s.data.take n⟩

/-- JS truthiness of a possibly-absent string (`undefined`/`null` and `""` are falsy). -/
def jsTruthyOptStr : Option String → Bool
  | some s => !(s == "")
  | none => false

/-- JS truthiness of a possibly-absent number (`undefined`/`null` and `0` are falsy). -/
def jsTruthyOptNat : Option Nat → Bool
  | some n => !(n == 0)
  | none => false

/-- JS `a || b` for a possibly-absent string `a` with default `b`. -/
def jsOrOptStr (v : Option String) (dflt : String) : String :=
  match v with
  | some s => if s == "" then dflt else s
  | none => dflt

/-- JS `a || b` for a possibly-absent number `a` with default `b`. -/
def jsOrOptNat (v : Option Nat) (dflt : Nat) : Nat :=
  match v with
  | some n => if n == 0 then dflt else n
  | none => dflt

/-- JS `a || b` for a plain string `a` (empty string is falsy). -/
def jsOrStrV (s dflt : String) : String :=
  if s == "" then dflt else s

/-- A selected file: `name`, `size` (bytes) and MIME `type`, as read off the
`File` object by the source. -/
structure File where
  name : String
  size : Nat
  type : String
deriving DecidableEq

/-- The analysis API's JSON payload, an open mapping with the well-known
optional keys the source reads or writes (`result.analysis`,
`result.ai_analysis`, `result.text`, `result.error`, `result.filename`,
`result.file_size`, `result.text_length`, and the remote-id keys the client
itself attaches: `db_file_id`, `analysis_db_id`, `file_url`,
`storage_path`).  `none` models an absent key. -/
structure AnalysisResult where
  analysis : Option String := none
  ai_analysis : Option String := none
  text : Option String := none
  error : Option String := none
  filename : Option String := none
  file_size : Option Nat := none
  text_length : Option Nat := none
  db_file_id : Option Nat := none
  analysis_db_id : Option Nat := none
  file_url : Option String := none
  storage_path : Option String := none
deriving DecidableEq

/-- The column values of a `documents` row as built by the source
(`documentData` in `uploadToDatabase`, and the text-document insert in
`saveTextAnalysisToDatabase`); the row id is assigned by the store.
Timestamps (`uploaded_at`) are modelled by the environment's clock value. -/
structure DocumentData where
  filename : String
  file_size : Nat
  file_type : String
  file_url : Option String := none
  storage_path : Option String := none
  text_content : Option String := none
  uploaded_at : Nat
deriving DecidableEq

/-- The column values of an `analyses` row as built by `insertData` in
`saveAnalysisToDatabase`; the row id is assigned by the store. -/
structure AnalysisData where
  document_id : Option Nat
  filename : String
  file_size : Nat
  text_length : Nat
  analysis : String
  analysis_type : String
  created_at : Nat
deriving DecidableEq

/-- The remote store: the `medical-documents` storage bucket (a set of object
paths) and the `documents` and `analyses` tables (rows keyed by id). -/
structure RemoteStore where
  storageObjects : List String
  documents : List (Nat × DocumentData)
  analyses : List (Nat × AnalysisData)
deriving DecidableEq

def emptyStore : RemoteStore := ⟨[], [], []⟩

def addStorage (p : String) (st : RemoteStore) : RemoteStore :=
  { st with storageObjects := st.storageObjects ++ [p] }

def removeStorage (p : String) (st : RemoteStore) : RemoteStore :=
  { st with storageObjects := st.storageObjects.filter (fun q => !(q == p)) }

def addDocument (rowId : Nat) (d : DocumentData) (st : RemoteStore) : RemoteStore :=
  { st with documents := st.documents ++ [(rowId, d)] }

def deleteDocument (rowId : Nat) (st : RemoteStore) : RemoteStore :=
  { st with documents := st.documents.filter (fun e => !(e.1 == rowId)) }

def addAnalysis (rowId : Nat) (d : AnalysisData) (st : RemoteStore) : RemoteStore :=
  { st with analyses := st.analyses ++ [(rowId, d)] }

def deleteAnalysis (rowId : Nat) (st : RemoteStore) : RemoteStore :=
  { st with analyses := st.analyses.filter (fun e => !(e.1 == rowId)) }

/-- Externally visible events of one workflow run, in source order: the
remote-store calls, the API calls (with the transmitted payload where the
claims inspect it), the settle delay, toasts and the final rendering of the
result. -/
inductive Event where
  | storageUpload (path : String)
  | documentsInsert (data : DocumentData)
  | apiUpload
  | apiText (sent : String)
  | analysesInsert (data : AnalysisData)
  | delay (ms : Nat)
  | storageRemove (path : String)
  | analysesDelete (rowId : Nat)
  | documentsDelete (rowId : Nat)
  | toast (message : String) (kind : String)
  | display (payload : AnalysisResult)
deriving DecidableEq

/-- Network-touching events (storage, tables, analysis API), as opposed to
purely local ones (delay, toast, display). -/
def isNetworkEvent : Event → Bool
  | .storageUpload _ => true
  | .documentsInsert _ => true
  | .apiUpload => true
  | .apiText _ => true
  | .analysesInsert _ => true
  | .storageRemove _ => true
  | .analysesDelete _ => true
  | .documentsDelete _ => true
  | .delay _ => false
  | .toast _ _ => false
  | .display _ => false

/-- Deletion calls against the remote store. -/
def isDeletionEvent : Event → Bool
  | .storageRemove _ => true
  | .analysesDelete _ => true
  | .documentsDelete _ => true
  | _ => false

/-- The text payloads transmitted to the text-analysis API in a trace. -/
def sentTexts (evs : List Event) : List String :=
  evs.filterMap fun e =>
    match e with
    | .apiText s => some s
    | _ => none

/-- The `documents` insert payloads occurring in a trace. -/
def docInserts (evs : List Event) : List DocumentData :=
  evs.filterMap fun e =>
    match e with
    | .documentsInsert d => some d
    | _ => none

/-- The `analyses` insert payloads occurring in a trace. -/
def anaInserts (evs : List Event) : List AnalysisData :=
  evs.filterMap fun e =>
    match e with
    | .analysesInsert d => some d
    | _ => none

/-! ### Storage path construction (`uploadToDatabase`, lines building `filePath`) -/

/-- JS `String.prototype.split('.')` on the underlying characters. -/
def splitDot : List Char → List (List Char)
  | [] => [[]]
  | c :: cs =>
    let r := splitDot cs
    if c == '.' then [] :: r
    else
      match r with
      | [] => [[c]]
      | h :: t => (c :: h) :: t

/-- JS `file.name.split('.').pop() || 'bin'`. -/
def fileExtOf (name : String) : String :=
  let last : String := ⟨(splitDot name.data).getLastD []⟩
  if last == "" then "bin" else last

/-- JS `file.name.replace(/\.[^/.]+$/, '')`: strip a final extension, i.e. a
trailing `'.'` followed by one or more characters none of which is `'.'` or
`'/'`; otherwise leave the name unchanged. -/
def stripLastExtension (name : String) : String :=
  let rev := name.data.reverse
  let tail := rev.takeWhile (fun c => !(c == '.') && !(c == '/'))
  if tail.isEmpty then name
  else
    match rev.drop tail.length with
    | '.' :: rest => ⟨rest.reverse⟩
    | _ => name

/-- JS `fileNameWithoutExt.replace(/[^a-z0-9]/gi, '_').toLowerCase()`. -/
def sanitizeBaseName (s : String) : String :=
  ⟨s.data.map (fun c => if c.isAlphanum then c.toLower else '_')⟩

/-- The collision-resistant storage path
`uploads/TIMESTAMP-SAFENAME.EXT` built in `uploadToDatabase`;
the timestamp (`Date.now()`) comes from the environment's clock. -/
def storagePathFor (name : String) (ts : Nat) : String :=
  "uploads/" ++ toString ts ++ "-" ++
    sanitizeBaseName (stripLastExtension name) ++ "." ++ fileExtOf name

/-- Models the Supabase SDK's `getPublicUrl`: an injective function of the
storage path (the SDK prepends the project's public object URL root). -/
def getPublicUrl (path : String) : String :=
  "https://supabase.example/storage/v1/object/public/medical-documents/" ++ path

/-! ### Environments: outcomes of the external calls -/

/-- Outcome of one remote deletion call: the call succeeded, or it resolved
with an error object (`{error}` non-null), or the awaited promise threw with
message `msg`. -/
inductive DelOutcome where
  | ok
  | errRet
  | threw (msg : String)
deriving DecidableEq

/-- Environment of one `uploadFile` run: whether Supabase persistence is
initialized, the clock, and the outcome of each external call in source
order. -/
structure UploadEnv where
  supabaseInitialized : Bool
  timestamp : Nat
  storageUpload : Except String Unit
  documentsInsert : Except String Nat
  apiResponse : Except String (Bool × AnalysisResult)
  analysesInsert : Except String Nat
  storageDelete : DelOutcome
  analysesDelete : DelOutcome
  documentsDelete : DelOutcome

/-- Environment of one `analyzeText` run. -/
structure TextEnv where
  supabaseInitialized : Bool
  timestamp : Nat
  apiResponse : Except String (Bool × AnalysisResult)
  documentsInsert : Except String Nat
  analysesInsert : Except String Nat
  analysesDelete : DelOutcome
  documentsDelete : DelOutcome

/-- The boolean result set returned by `deleteAllRecords`. -/
structure DeleteResults where
  storage : Bool
  documents : Bool
  analyses : Bool
deriving DecidableEq

/-- Final outcome of one workflow run: the payload rendered by
`showResults` (if reached), the final remote-store state, and the event
trace. -/
structure FlowOutcome where
  displayed : Option AnalysisResult
  store : RemoteStore
  events : List Event
deriving DecidableEq

/-! ### `deleteAllRecords` (source lines 408-478) -/

/-- `deleteAllRecords(fileId, analysisId, storagePath)`: guard on the
initialized client, then best-effort deletion of the storage object, the
`analyses` row and the `documents` row, in that order; each deletion is
guarded by truthiness of its id, wrapped in its own try/catch, and its
success recorded as a boolean.  The outer catch's rethrow is unreachable
(every awaited call sits inside an inner try or has its error object
inspected), so the non-guard result is always `ok`. -/
def deleteAllRecords (init : Bool) (fileId analysisId : Option Nat)
    (storagePath : Option String) (dStorage dAnalyses dDocs : DelOutcome)
    (store : RemoteStore) :
    Except String (DeleteResults × RemoteStore × List Event) :=
  if !init then .error "Supabase not initialized"
  else
    let s1 : Bool × RemoteStore × List Event :=
      if jsTruthyOptStr storagePath then
        let p := storagePath.getD ""
        match dStorage with
        | .ok => (true, removeStorage p store, [Event.storageRemove p])
        | .errRet => (false, store, [Event.storageRemove p])
        | .threw _ => (false, store, [Event.storageRemove p])
      else (false, store, [])
    let s2 : Bool × RemoteStore × List Event :=
      if jsTruthyOptNat analysisId then
        let i := analysisId.getD 0
        match dAnalyses with
        | .ok => (true, deleteAnalysis i s1.2.1, [Event.analysesDelete i])
        | .errRet => (false, s1.2.1, [Event.analysesDelete i])
        | .threw _ => (false, s1.2.1, [Event.analysesDelete i])
      else (false, s1.2.1, [])
    let s3 : Bool × RemoteStore × List Event :=
      if jsTruthyOptNat fileId then
        let i := fileId.getD 0
        match dDocs with
        | .ok => (true, deleteDocument i s2.2.1, [Event.documentsDelete i])
        | .errRet => (false, s2.2.1, [Event.documentsDelete i])
        | .threw _ => (false, s2.2.1, [Event.documentsDelete i])
      else (false, s2.2.1, [])
    .ok ({ storage := s1.1, documents := s3.1, analyses := s2.1 },
         s3.2.1, s1.2.2 ++ s2.2.2 ++ s3.2.2)

/-! ### `uploadToDatabase` (source lines 758-852) -/

/-- What `uploadToDatabase` returns on success: the `documents` row id, the
public URL and the storage path. -/
structure UploadResult where
  id : Nat
  url : String
  path : String
deriving DecidableEq

/-- `uploadToDatabase(file)`: upload the file bytes to the
`medical-documents` bucket under `storagePathFor`, then insert a metadata
row into `documents`.  A storage error throws before anything was created; a
`documents` insert error (or empty returned data, collapsed into the same
`Except` error) throws *after* the storage object was created, which then
remains in the store. -/
def uploadToDatabase (file : File) (env : UploadEnv) (store : RemoteStore) :
    Except String UploadResult × RemoteStore × List Event :=
  if !env.supabaseInitialized then (.error "Supabase not initialized", store, [])
  else
    let filePath := storagePathFor file.name env.timestamp
    match env.storageUpload with
    | .error e => (.error e, store, [Event.storageUpload filePath])
    | .ok _ =>
      let store1 := addStorage filePath store
      let url := getPublicUrl filePath
      let docData : DocumentData :=
        { filename := file.name
        , file_size := file.size
        , file_type := jsOrStrV file.type "application/octet-stream"
        , file_url := some url
        , storage_path := some filePath
        , text_content := none
        , uploaded_at := env.timestamp }
      match env.documentsInsert with
      | .error e =>
        (.error e, store1, [Event.storageUpload filePath, Event.documentsInsert docData])
      | .ok rowId =>
        (.ok ⟨rowId, url, filePath⟩, addDocument rowId docData store1,
         [Event.storageUpload filePath, Event.documentsInsert docData])

/-! ### `saveAnalysisToDatabase` (source lines 854-909) -/

/-- Abstraction of `JSON.stringify(analysisData)`: a deterministic
serialization of the payload; only used when no analysis-text field is
truthy. -/
def stringifyResult (d : AnalysisResult) : String :=
  String.intercalate ";"
    (([d.analysis, d.ai_analysis, d.text, d.error, d.filename,
       d.file_size.map toString, d.text_length.map toString,
       d.db_file_id.map toString, d.analysis_db_id.map toString,
       d.file_url, d.storage_path].filterMap id))

/-- The analysis-text fallback chain of `saveAnalysisToDatabase`:
`analysis`, else `ai_analysis`, else `text`, else the serialized payload
(JS truthiness, so an empty string falls through). -/
def extractAnalysisText (d : AnalysisResult) : String :=
  if jsTruthyOptStr d.analysis then d.analysis.getD ""
  else if jsTruthyOptStr d.ai_analysis then d.ai_analysis.getD ""
  else if jsTruthyOptStr d.text then d.text.getD ""
  else stringifyResult d

/-- The `insertData` object built by `saveAnalysisToDatabase`. -/
def mkAnalysisData (d : AnalysisResult) (fileId : Option Nat) (ts : Nat) :
    AnalysisData :=
  let analysisText := extractAnalysisText d
  { document_id := fileId
  , filename := jsOrOptStr d.filename "Document Analysis"
  , file_size := jsOrOptNat d.file_size 0
  , text_length := jsOrOptNat d.text_length analysisText.length
  , analysis := analysisText
  , analysis_type := if jsTruthyOptNat fileId then "document" else "text"
  , created_at := ts }

/-- `saveAnalysisToDatabase(analysisData, fileId)`: insert the `insertData`
row into `analyses`; on success return the inserted row (`data[0]`), which
echoes the insert payload together with its assigned id. -/
def saveAnalysisToDatabase (init : Bool) (ts : Nat)
    (insertOutcome : Except String Nat) (d : AnalysisResult)
    (fileId : Option Nat) (store : RemoteStore) :
    Except String (Nat × AnalysisData) × RemoteStore × List Event :=
  if !init then (.error "Supabase not initialized", store, [])
  else
    let row := mkAnalysisData d fileId ts
    match insertOutcome with
    | .error e => (.error e, store, [Event.analysesInsert row])
    | .ok rowId => (.ok (rowId, row), addAnalysis rowId row store, [Event.analysesInsert row])

/-! ### `saveTextAnalysisToDatabase` (source lines 911-955) -/

/-- `saveTextAnalysisToDatabase(analysisData, originalText)`: insert the
full original text as a `documents` row (`text_content` holds the complete
trimmed input, `file_size` its UTF-8 byte size as `new Blob([text]).size`),
then mutate the payload (`filename`, `file_size`, and `text_length :=
originalText.length`) and insert the linked `analyses` row.  The possibly
mutated payload is returned alongside, since the caller keeps displaying the
same object. -/
def saveTextAnalysisToDatabase (init : Bool) (ts : Nat)
    (docInsert anaInsert : Except String Nat) (d : AnalysisResult)
    (originalText : String) (store : RemoteStore) :
    Except String (Nat × AnalysisData) × AnalysisResult × RemoteStore × List Event :=
  if !init then (.error "Supabase not initialized", d, store, [])
  else
    let docData : DocumentData :=
      { filename := "text-input-" ++ toString ts ++ ".txt"
      , file_size := originalText.utf8ByteSize
      , file_type := "text/plain"
      , file_url := none
      , storage_path := none
      , text_content := some originalText
      , uploaded_at := ts }
    match docInsert with
    | .error e => (.error e, d, store, [Event.documentsInsert docData])
    | .ok docId =>
      let store1 := addDocument docId docData store
      let d1 := { d with filename := some docData.filename
                       , file_size := some docData.file_size
                       , text_length := some originalText.length }
      match saveAnalysisToDatabase init ts anaInsert d1 (some docId) store1 with
      | (res, store2, ev2) =>
        (res, d1, store2, [Event.documentsInsert docData] ++ ev2)

/-! ### `uploadFile` (source lines 487-623) -/

/-- `uploadFile()` for a selected file: size validation, optional
pre-analysis persistence (non-fatal), the analysis API call (fatal on
failure), optional analysis-row persistence followed by the 1000 ms settle
delay and `deleteAllRecords` cleanup, stripping of the remote-id fields, and
display of the result. -/
def uploadFile (file : File) (env : UploadEnv) (store0 : RemoteStore) : FlowOutcome :=
  if 10 * 1024 * 1024 < file.size then
    ⟨none, store0, [Event.toast "File too large. Maximum size is 10MB." "error"]⟩
  else
    let step1 : Option UploadResult × RemoteStore × List Event :=
      if env.supabaseInitialized then
        match uploadToDatabase file env store0 with
        | (.ok r, st, ev) => (some r, st, ev)
        | (.error e, st, ev) =>
          (none, st, ev ++ [Event.toast ("Database upload failed: " ++ e) "error"])
      else (none, store0, [])
    let dbRes := step1.1
    let store1 := step1.2.1
    let dbFileId : Option Nat := dbRes.map (fun r => r.id)
    let fileUrl : Option String := dbRes.map (fun r => r.url)
    let storagePath : Option String := dbRes.map (fun r => r.path)
    let ev2 := step1.2.2 ++ [Event.apiUpload]
    match env.apiResponse with
    | .error e =>
      ⟨none, store1, ev2 ++ [Event.toast ("Network error: " ++ e) "error"]⟩
    | .ok (respOk, result0) =>
      if respOk then
        let result1 :=
          if jsTruthyOptNat dbFileId then
            { result0 with db_file_id := dbFileId
                         , file_url := fileUrl
                         , storage_path := storagePath }
          else result0
        if env.supabaseInitialized && jsTruthyOptNat dbFileId then
          match saveAnalysisToDatabase env.supabaseInitialized env.timestamp
                  env.analysesInsert result1 dbFileId store1 with
          | (.ok (aid, _), store2, ev3) =>
            let result2 := { result1 with analysis_db_id := some aid }
            match deleteAllRecords env.supabaseInitialized dbFileId (some aid)
                    storagePath env.storageDelete env.analysesDelete
                    env.documentsDelete store2 with
            | .ok (dres, store3, ev5) =>
              let deletedCount :=
                (if dres.storage then 1 else 0) + (if dres.documents then 1 else 0) +
                  (if dres.analyses then 1 else 0)
              let toastEv :=
                if 0 < deletedCount then
                  [Event.toast ("Analysis complete - " ++ toString deletedCount ++
                    " items cleaned up") "success"]
                else []
              let result3 := { result2 with db_file_id := none
                                          , analysis_db_id := none
                                          , file_url := none
                                          , storage_path := none }
              ⟨some result3, store3,
               ev2 ++ ev3 ++ [Event.delay 1000] ++ ev5 ++ toastEv ++
                 [Event.display result3]⟩
            | .error e =>
              -- A throw out of `deleteAllRecords` lands in the same catch as
              -- an analysis-save failure; the id fields are then not stripped.
              ⟨some result2, store2,
               ev2 ++ ev3 ++ [Event.delay 1000] ++
                 [Event.toast ("Analysis save failed: " ++ e) "error",
                  Event.display result2]⟩
          | (.error e, store2, ev3) =>
            ⟨some result1, store2,
             ev2 ++ ev3 ++ [Event.toast ("Analysis save failed: " ++ e) "error",
               Event.display result1]⟩
        else
          ⟨some result1, store1, ev2 ++ [Event.display result1]⟩
      else
        ⟨none, store1,
         ev2 ++ [Event.toast (jsOrOptStr result0.error "Upload failed") "error"]⟩

/-! ### `analyzeText` (source lines 625-710) -/

/-- `analyzeText()` for the textarea content `input`: trim, reject empty,
POST the first 3000 characters of the trimmed text, then (when persistence
is on) save the *full* trimmed text and the analysis row, wait 1000 ms, and
delete the two rows (the analyses delete's error object is not inspected; a
thrown delete aborts into the catch, skipping the rest), strip
`analysis_db_id`, and display. -/
def analyzeText (input : String) (env : TextEnv) (store0 : RemoteStore) : FlowOutcome :=
  let text := jsTrim input
  if text == "" then
    ⟨none, store0, [Event.toast "Please enter some medical text" "error"]⟩
  else
    let sent := jsSubstring text 3000
    let ev1 := [Event.apiText sent]
    match env.apiResponse with
    | .error e =>
      ⟨none, store0, ev1 ++ [Event.toast ("Network error: " ++ e) "error"]⟩
    | .ok (respOk, result0) =>
      if respOk then
        if env.supabaseInitialized then
          match saveTextAnalysisToDatabase env.supabaseInitialized env.timestamp
                  env.documentsInsert env.analysesInsert result0 text store0 with
          | (.ok (aid, anaData), d1, store1, ev2) =>
            let result1 := { d1 with analysis_db_id := some aid }
            let ev3 := ev1 ++ ev2 ++ [Event.delay 1000]
            if jsTruthyOptNat anaData.document_id then
              let docId := anaData.document_id.getD 0
              match env.analysesDelete with
              | .threw msg =>
                ⟨some result1, store1,
                 ev3 ++ [Event.analysesDelete aid,
                   Event.toast ("Text analysis save failed: " ++ msg) "error",
                   Event.display result1]⟩
              | aDel =>
                let store2 := if aDel == .ok then deleteAnalysis aid store1 else store1
                match env.documentsDelete with
                | .threw msg =>
                  ⟨some result1, store2,
                   ev3 ++ [Event.analysesDelete aid, Event.documentsDelete docId,
                     Event.toast ("Text analysis save failed: " ++ msg) "error",
                     Event.display result1]⟩
                | dDel =>
                  let store3 := if dDel == .ok then deleteDocument docId store2 else store2
                  let result2 := { result1 with analysis_db_id := none }
                  ⟨some result2, store3,
                   ev3 ++ [Event.analysesDelete aid, Event.documentsDelete docId,
                     Event.toast "Analysis complete - records cleaned up" "success",
                     Event.display result2]⟩
            else
              let result2 := { result1 with analysis_db_id := none }
              ⟨some result2, store1, ev3 ++ [Event.display result2]⟩
          | (.error e, d1, store1, ev2) =>
            ⟨some d1, store1,
             ev1 ++ ev2 ++ [Event.toast ("Text analysis save failed: " ++ e) "error",
               Event.display d1]⟩
        else
          ⟨some result0, store0, ev1 ++ [Event.display result0]⟩
      else
        ⟨none, store0,
         ev1 ++ [Event.toast (jsOrOptStr result0.error "Analysis failed") "error"]⟩

/-! ### Service worker (`static/service-worker.js`) -/

/-- An intercepted request: its URL and its mode (`"navigate"` for full-page
loads). -/
structure Request where
  url : String
  mode : String
deriving DecidableEq

/-- A response as the fetch listeners inspect it: HTTP status, response type
(`"basic"` for normal same-origin responses, `"opaque"` for no-cors
cross-origin ones), and a tag standing for the body. -/
structure Response where
  status : Nat
  type : String
  tag : Nat
deriving DecidableEq

/-- The cache: URL-keyed entries of the current named cache. -/
abbrev Cache := List (String × Response)

/-- `caches.match`, keyed by request URL. -/
def cacheMatch (url : String) (c : Cache) : Option Response :=
  match c.find? (fun e => e.1 == url) with
  | some e => some e.2
  | none => none

/-- `cache.put(request, response)`: store/replace the entry for the URL. -/
def cachePut (url : String) (resp : Response) (c : Cache) : Cache :=
  c.filter (fun e => !(e.1 == url)) ++ [(url, resp)]

/-- JS `event.request.url.includes('/api/')`. -/
def isApiUrl (url : String) : Bool :=
  decide (List.IsInfix "/api/".data url.data)

/-- What a fetch listener settles `respondWith` with: a response, or a
rejection (the page sees a network error). -/
abbrev SWResponse := Except Unit Response

/-- Result of dispatching one fetch event: the settled response and the
cache afterwards. -/
structure SWOut where
  response : SWResponse
  cache : Cache

/-- The first fetch listener (routing, source lines 50-91).  It calls
`respondWith` on *every* request: network-first with cache fallback for API
URLs (an absent fallback entry resolves `respondWith` with `undefined`,
which the page sees as a network error), cache-first for everything else; on
a cache miss the network response is returned, and additionally stored in
the current cache exactly when it has status 200 and type `'basic'` (a fetch
rejection propagates, as the cache-miss path has no catch).  `net` is the
network's answer for this request. -/
def fetchListener1 (req : Request) (cache : Cache) (net : SWResponse) :
    Option SWResponse × Cache :=
  if isApiUrl req.url then
    match net with
    | .ok r => (some (.ok r), cache)
    | .error _ =>
      match cacheMatch req.url cache with
      | some r => (some (.ok r), cache)
      | none => (some (.error ()), cache)
  else
    match cacheMatch req.url cache with
    | some r => (some (.ok r), cache)
    | none =>
      match net with
      | .error _ => (some (.error ()), cache)
      | .ok resp =>
        if resp.status == 200 && resp.type == "basic" then
          (some (.ok resp), cachePut req.url resp cache)
        else (some (.ok resp), cache)

/-- The second fetch listener (offline fallback, source lines 94-103): for
navigation requests, respond with the network response, falling back to the
cached root document `'/'` on failure; for other requests it does not call
`respondWith`. -/
def fetchListener2 (req : Request) (cache : Cache) (net : SWResponse) :
    Option SWResponse :=
  if req.mode == "navigate" then
    some (match net with
          | .ok r => .ok r
          | .error _ =>
            match cacheMatch "/" cache with
            | some r => .ok r
            | none => .error ())
  else none

/-- Dispatch of one fetch event: listeners run in registration order and
only the first `respondWith` takes effect (a later `respondWith` throws
`InvalidStateError` inside its own listener and is discarded); if no
listener responds, the request goes to the network untouched. -/
def swDispatch (req : Request) (cache : Cache) (net : SWResponse) : SWOut :=
  match fetchListener1 req cache net with
  | (some r, c) => ⟨r, c⟩
  | (none, c) =>
    match fetchListener2 req c net with
    | some r => ⟨r, c⟩
    | none => ⟨net, c⟩

/-! ### Concrete example values used by several theorems -/

/-- A 5 MB PDF, as in the spec's scenario. -/
def exFile : File := ⟨"x.pdf", 5242880, "application/pdf"⟩

/-- The spec's scenario payload `{analysis: "OK", filename: "x.pdf"}`. -/
def exResult : AnalysisResult := { analysis := some "OK", filename := some "x.pdf" }

/-- An environment in which every external call succeeds. -/
def exEnv : UploadEnv :=
  { supabaseInitialized := true
  , timestamp := 17
  , storageUpload := .ok ()
  , documentsInsert := .ok 3
  , apiResponse := .ok (true, exResult)
  , analysesInsert := .ok 5
  , storageDelete := .ok
  , analysesDelete := .ok
  , documentsDelete := .ok }

/-- The storage path `uploadToDatabase` builds for `exFile` at clock 17. -/
def exPath : String := "uploads/17-x.pdf"

/-- A fully successful text-analysis environment. -/
def exTEnv : TextEnv :=
  { supabaseInitialized := true
  , timestamp := 17
  , apiResponse := .ok (true, exResult)
  , documentsInsert := .ok 3
  , analysesInsert := .ok 5
  , analysesDelete := .ok
  , documentsDelete := .ok }

/-! ### Helper lemmas -/

lemma string_length_ne_zero (s : String) (h : s ≠ "") : s.length ≠ 0 := by
  cases s with
  | mk l =>
    cases l with
    | nil => exact absurd rfl h
    | cons c cs => simp [String.length]

/-! ### Claims -/

/-- Claim C4: for every file whose size exceeds 10 MiB, analyze-by-file
fails with the validation toast and returns before making any network call:
the whole trace is the single error toast, nothing is displayed, and the
remote store is untouched. -/
theorem c4_oversize_rejected_before_network (file : File) (env : UploadEnv)
    (st : RemoteStore) (h : 10 * 1024 * 1024 < file.size) :
    uploadFile file env st =
      ⟨none, st, [Event.toast "File too large. Maximum size is 10MB." "error"]⟩
    ∧ ((uploadFile file env st).events.all (fun e => !(isNetworkEvent e))) = true := by
  refine ⟨?_, ?_⟩ <;> simp [uploadFile, h, isNetworkEvent]

theorem c4_witness :
    uploadFile ⟨"big.pdf", 10485761, "application/pdf"⟩ exEnv emptyStore =
      ⟨none, emptyStore, [Event.toast "File too large. Maximum size is 10MB." "error"]⟩
    ∧ ((uploadFile ⟨"big.pdf", 10485761, "application/pdf"⟩ exEnv emptyStore).events.all
        (fun e => !(isNetworkEvent e))) = true :=
  c4_oversize_rejected_before_network ⟨"big.pdf", 10485761, "application/pdf"⟩ exEnv
    emptyStore (by norm_num)

/-- Claim C9: for every input that trims to the empty string, analyze-by-text
fails with the validation toast and makes no API call: the whole trace is
the single error toast, nothing is displayed, and the store is untouched. -/
theorem c9_whitespace_only_rejected (input : String) (env : TextEnv)
    (st : RemoteStore) (h : jsTrim input = "") :
    analyzeText input env st =
      ⟨none, st, [Event.toast "Please enter some medical text" "error"]⟩
    ∧ ((analyzeText input env st).events.all (fun e => !(isNetworkEvent e))) = true := by
  refine ⟨?_, ?_⟩ <;> simp [analyzeText, h, isNetworkEvent]

theorem c9_witness :
    analyzeText "  " exTEnv emptyStore =
      ⟨none, emptyStore, [Event.toast "Please enter some medical text" "error"]⟩
    ∧ ((analyzeText "  " exTEnv emptyStore).events.all
        (fun e => !(isNetworkEvent e))) = true :=
  c9_whitespace_only_rejected "  " exTEnv emptyStore (by decide)

/-- The response cached for the root document at install time. -/
def rootResponse : Response := ⟨200, "basic", 0⟩

/-- A cache holding the root document, as after the install step. -/
def installCache : Cache := [("/", rootResponse)]

/-- A navigation request to a page that is not in the cache. -/
def offlineNavRequest : Request := ⟨"/dashboard", "navigate"⟩

/-- Claim C6 (code bug witness): for a navigation request to an uncached
URL while the network fetch fails, the dispatched response is a network
error, *not* the cached root document — even though the root is cached and
the offline-fallback listener alone would have served it.  The first fetch
listener calls `respondWith` on every request and its cache-miss path has
no catch, so the second listener's `respondWith` always throws and the
fallback never takes effect. -/
theorem c6_navigation_fallback_dead :
    (swDispatch offlineNavRequest installCache (.error ())).response = .error ()
    ∧ cacheMatch "/" installCache = some rootResponse
    ∧ fetchListener2 offlineNavRequest installCache (.error ()) =
        some (.ok rootResponse) := by
  refine ⟨?_, rfl, rfl⟩
  rfl

/-- An environment in which the storage upload succeeds but the `documents`
insert is rejected. -/
def cexEnv : UploadEnv := { exEnv with documentsInsert := .error "row-level security" }

/-- Claim C1 is refuted by this run: remote persistence is enabled, the
storage upload succeeds, the `documents` insert fails (so the workflow
continues without a remote record), the analysis succeeds and is displayed
— a successful analyze-by-file with a partially failed persistence step —
yet the uploaded storage object remains in the remote store, because the
cleanup never learns its path. -/
theorem c1_counterexample :
    cexEnv.supabaseInitialized = true
    ∧ (uploadFile exFile cexEnv emptyStore).displayed.isSome = true
    ∧ (uploadFile exFile cexEnv emptyStore).store.storageObjects = [exPath] := by
  refine ⟨rfl, ?_, ?_⟩ <;> decide

/-- An `uploadFile` environment in which persistence is enabled and every
step up to the cleanup succeeds, with the given cleanup outcomes. -/
def okUploadEnv (ts fid aid : Nat) (r : AnalysisResult)
    (d1 d2 d3 : DelOutcome) : UploadEnv :=
  ⟨true, ts, .ok (), .ok fid, .ok (true, r), .ok aid, d1, d2, d3⟩

lemma storagePathFor_ne_empty (name : String) (ts : Nat) :
    storagePathFor name ts ≠ "" := by
  intro h
  have hd : (storagePathFor name ts).data = "".data := by rw [h]
  simp only [storagePathFor] at hd
  rw [String.data_append, String.data_append, String.data_append,
    String.data_append, String.data_append] at hd
  simp at hd

/-- Claim C1, amended: after a successful analyze-by-file with persistence
enabled in which the persistence steps fully succeed (storage upload,
`documents` insert with a truthy row id, analysis-row insert) *and* every
cleanup deletion succeeds, no user content remains in the remote store: the
run displays a result and leaves the store exactly as it started (all three
artifacts created by the run are gone). -/
theorem c1_amended_full_success_no_retention (file : File) (r : AnalysisResult)
    (ts fid aid : Nat) (hsize : file.size ≤ 10 * 1024 * 1024) (hfid : fid ≠ 0)
    (haid : aid ≠ 0) :
    (uploadFile file (okUploadEnv ts fid aid r .ok .ok .ok) emptyStore).displayed.isSome
        = true
    ∧ (uploadFile file (okUploadEnv ts fid aid r .ok .ok .ok) emptyStore).store
        = emptyStore := by
  have hs : ¬ (10 * 1024 * 1024 < file.size) := not_lt.mpr hsize
  have hf : (fid == 0) = false := beq_eq_false_iff_ne.mpr hfid
  have ha : (aid == 0) = false := beq_eq_false_iff_ne.mpr haid
  have hp : (storagePathFor file.name ts == "") = false :=
    beq_eq_false_iff_ne.mpr (storagePathFor_ne_empty file.name ts)
  constructor <;>
    simp [uploadFile, uploadToDatabase, saveAnalysisToDatabase, deleteAllRecords,
      okUploadEnv, hs, hf, ha, hfid, haid, hp, jsTruthyOptNat, jsTruthyOptStr,
      addStorage, removeStorage, addDocument, deleteDocument, addAnalysis,
      deleteAnalysis, emptyStore]

theorem c1_amended_witness :
    (uploadFile exFile (okUploadEnv 17 3 5 exResult .ok .ok .ok)
        emptyStore).displayed.isSome = true
    ∧ (uploadFile exFile (okUploadEnv 17 3 5 exResult .ok .ok .ok) emptyStore).store
        = emptyStore :=
  c1_amended_full_success_no_retention exFile exResult 17 3 5 (by norm_num [exFile])
    (by norm_num) (by norm_num)

/-- Claim C8: whenever the cleanup step of a successful analyze-by-file with
persistence completes — whatever the outcome of each individual deletion —
the payload displayed to the user carries none of the remote-id fields
`db_file_id`, `analysis_db_id`, `file_url`, `storage_path`. -/
theorem c8_remote_ids_stripped (file : File) (r : AnalysisResult)
    (ts fid aid : Nat) (d1 d2 d3 : DelOutcome)
    (hsize : file.size ≤ 10 * 1024 * 1024) (hfid : fid ≠ 0) :
    ∃ res, (uploadFile file (okUploadEnv ts fid aid r d1 d2 d3) emptyStore).displayed
        = some res
      ∧ res.db_file_id = none ∧ res.analysis_db_id = none
      ∧ res.file_url = none ∧ res.storage_path = none := by
  have hs : ¬ (10 * 1024 * 1024 < file.size) := not_lt.mpr hsize
  have hf : (fid == 0) = false := beq_eq_false_iff_ne.mpr hfid
  have h : (uploadFile file (okUploadEnv ts fid aid r d1 d2 d3) emptyStore).displayed =
      some { analysis := r.analysis, ai_analysis := r.ai_analysis, text := r.text,
             error := r.error, filename := r.filename, file_size := r.file_size,
             text_length := r.text_length } := by
    simp [uploadFile, uploadToDatabase, saveAnalysisToDatabase, deleteAllRecords,
      okUploadEnv, hs, hf, jsTruthyOptNat]
  exact ⟨_, h, rfl, rfl, rfl, rfl⟩

theorem c8_witness :
    ∃ res, (uploadFile exFile (okUploadEnv 17 3 5 exResult .errRet (.threw "boom") .ok)
        emptyStore).displayed = some res
      ∧ res.db_file_id = none ∧ res.analysis_db_id = none
      ∧ res.file_url = none ∧ res.storage_path = none :=
  c8_remote_ids_stripped exFile exResult 17 3 5 .errRet (.threw "boom") .ok
    (by norm_num [exFile]) (by norm_num)

/-- Claim C2: in every analyze-by-file run in which the analysis-row insert
fails, no deletion call (storage remove, analyses delete, documents delete)
occurs anywhere in the trace. -/
theorem c2_no_deletions_on_analysis_insert_failure (file : File) (env : UploadEnv)
    (st : RemoteStore) (msg : String) (h : env.analysesInsert = .error msg) :
    ((uploadFile file env st).events.all (fun e => !(isDeletionEvent e))) = true := by
  obtain ⟨sb, ts, su, di, ar, ai, sd, ad, dd⟩ := env
  simp only at h
  subst h
  by_cases hsz : 10 * 1024 * 1024 < file.size
  all_goals
    cases sb <;>
    rcases su with e1 | u <;>
    rcases di with e2 | fid <;>
    rcases ar with e3 | p <;>
    (try obtain ⟨ok, r⟩ := p) <;>
    (try cases ok) <;>
    simp [uploadFile, uploadToDatabase, saveAnalysisToDatabase, hsz,
      isDeletionEvent, jsTruthyOptNat] <;>
    split <;>
    simp [isDeletionEvent]

theorem c2_witness :
    ((uploadFile exFile { exEnv with analysesInsert := .error "boom" }
        emptyStore).events.all (fun e => !(isDeletionEvent e))) = true :=
  c2_no_deletions_on_analysis_insert_failure exFile
    { exEnv with analysesInsert := .error "boom" } emptyStore "boom" rfl

/-- The `documents` insert payload of the fully successful example run. -/
def exDocData : DocumentData :=
  { filename := "x.pdf", file_size := 5242880, file_type := "application/pdf"
  , file_url := some (getPublicUrl exPath), storage_path := some exPath
  , text_content := none, uploaded_at := 17 }

/-- The `analyses` insert payload of the fully successful example run. -/
def exAnaData : AnalysisData :=
  { document_id := some 3, filename := "x.pdf", file_size := 0, text_length := 2
  , analysis := "OK", analysis_type := "document", created_at := 17 }

/-- Claim C3: `deleteAllRecords` with all three ids present attempts the
deletions in the order storage object, `analyses` row, `documents` row;
every deletion is attempted whatever the outcome of the others (the trace is
the same three calls for *all* outcome combinations), and each outcome is
recorded as a boolean in the returned result set.  Moreover, in a fully
successful analyze-by-file run the cleanup is invoked right after the
1000 ms settle delay, which follows the analysis-row insert. -/
theorem c3_cleanup_order_independence_results :
    (∀ (fid aid : Nat) (p : String) (d1 d2 d3 : DelOutcome) (st : RemoteStore),
      fid ≠ 0 → aid ≠ 0 → p ≠ "" →
      ((deleteAllRecords true (some fid) (some aid) (some p) d1 d2 d3 st).toOption.map
          (fun o => o.2.2)) =
        some [Event.storageRemove p, Event.analysesDelete aid, Event.documentsDelete fid]
      ∧ ((deleteAllRecords true (some fid) (some aid) (some p) d1 d2 d3 st).toOption.map
          (fun o => o.1.storage)) = some (decide (d1 = .ok))
      ∧ ((deleteAllRecords true (some fid) (some aid) (some p) d1 d2 d3 st).toOption.map
          (fun o => o.1.analyses)) = some (decide (d2 = .ok))
      ∧ ((deleteAllRecords true (some fid) (some aid) (some p) d1 d2 d3 st).toOption.map
          (fun o => o.1.documents)) = some (decide (d3 = .ok)))
    ∧ (uploadFile exFile exEnv emptyStore).events =
        [Event.storageUpload exPath, Event.documentsInsert exDocData, Event.apiUpload,
         Event.analysesInsert exAnaData, Event.delay 1000,
         Event.storageRemove exPath, Event.analysesDelete 5, Event.documentsDelete 3,
         Event.toast "Analysis complete - 3 items cleaned up" "success",
         Event.display exResult] := by
  constructor
  · intro fid aid p d1 d2 d3 st hfid haid hp
    have hf : (fid == 0) = false := beq_eq_false_iff_ne.mpr hfid
    have ha : (aid == 0) = false := beq_eq_false_iff_ne.mpr haid
    have hps : (p == "") = false := beq_eq_false_iff_ne.mpr hp
    cases d1 <;> cases d2 <;> cases d3 <;>
      simp [deleteAllRecords, Except.toOption, jsTruthyOptNat, jsTruthyOptStr,
        hf, ha, hps]
  · decide

theorem c3_witness :
    ((deleteAllRecords true (some 3) (some 5) (some "uploads/x.txt")
        .errRet .ok (.threw "boom") emptyStore).toOption.map (fun o => o.2.2)) =
      some [Event.storageRemove "uploads/x.txt", Event.analysesDelete 5,
        Event.documentsDelete 3]
    ∧ ((deleteAllRecords true (some 3) (some 5) (some "uploads/x.txt")
        .errRet .ok (.threw "boom") emptyStore).toOption.map (fun o => o.1.storage)) =
      some false
    ∧ ((deleteAllRecords true (some 3) (some 5) (some "uploads/x.txt")
        .errRet .ok (.threw "boom") emptyStore).toOption.map (fun o => o.1.analyses)) =
      some true
    ∧ ((deleteAllRecords true (some 3) (some 5) (some "uploads/x.txt")
        .errRet .ok (.threw "boom") emptyStore).toOption.map (fun o => o.1.documents)) =
      some false :=
  c3_cleanup_order_independence_results.1 3 5 "uploads/x.txt" .errRet .ok (.threw "boom")
    emptyStore (by decide) (by decide) (by decide)

/-- Claim C5: for every non-empty (after trimming) text input, the payload
transmitted to the text-analysis API is exactly the first 3000 characters of
the trimmed input — in particular at most 3000 characters, with no error
raised for longer inputs (the single API call of the run carries the
truncation). -/
theorem c5_text_truncated_to_3000 (input : String) (env : TextEnv) (st : RemoteStore)
    (h : jsTrim input ≠ "") :
    sentTexts (analyzeText input env st).events = [jsSubstring (jsTrim input) 3000]
    ∧ (jsSubstring (jsTrim input) 3000).length ≤ 3000
    ∧ (jsSubstring (jsTrim input) 3000).data = (jsTrim input).data.take 3000 := by
  have hg : (jsTrim input == "") = false := beq_eq_false_iff_ne.mpr h
  refine ⟨?_, ?_, rfl⟩
  · obtain ⟨sb, ts, ar, di, ai, ad, dd⟩ := env
    cases sb <;>
    rcases ar with e | p <;>
    (try obtain ⟨ok, r⟩ := p) <;>
    (try cases ok) <;>
    rcases di with e1 | docId <;>
    rcases ai with e2 | aid <;>
    cases ad <;>
    cases dd <;>
    simp [analyzeText, saveTextAnalysisToDatabase, saveAnalysisToDatabase,
      mkAnalysisData, sentTexts, hg, jsTruthyOptNat] <;>
    split <;>
    simp [sentTexts]
  · show ((jsTrim input).data.take 3000).length ≤ 3000
    rw [List.length_take]
    omega

/-- A 3001-character input, longer than the 3000-character transmission cap. -/
def longInput : String := ⟨List.replicate 3001 'a'⟩

set_option maxRecDepth 10000 in
theorem c5_witness :
    sentTexts (analyzeText longInput exTEnv emptyStore).events =
      [jsSubstring (jsTrim longInput) 3000]
    ∧ (jsSubstring (jsTrim longInput) 3000).length ≤ 3000
    ∧ (jsSubstring (jsTrim longInput) 3000).data = (jsTrim longInput).data.take 3000 :=
  c5_text_truncated_to_3000 longInput exTEnv emptyStore (by decide)

/-- An `analyzeText` environment with persistence enabled in which both
inserts succeed, with the given deletion outcomes. -/
def okTextEnv (ts docId aid : Nat) (r : AnalysisResult) (d1 d2 : DelOutcome) : TextEnv :=
  ⟨true, ts, .ok (true, r), .ok docId, .ok aid, d1, d2⟩

/-- Claim C10: in every analyze-by-text run with persistence enabled in
which the inserts succeed, the `documents` row insert carries the *full*
trimmed input in `text_content`, and the `analyses` row insert carries the
full trimmed input's length in `text_length` — while the API itself is sent
only the first 3000 characters. -/
theorem c10_full_text_persisted (input : String) (r : AnalysisResult)
    (ts docId aid : Nat) (d1 d2 : DelOutcome) (st : RemoteStore)
    (h : jsTrim input ≠ "") :
    ((docInserts (analyzeText input (okTextEnv ts docId aid r d1 d2) st).events).map
        (fun d => d.text_content)) = [some (jsTrim input)]
    ∧ ((anaInserts (analyzeText input (okTextEnv ts docId aid r d1 d2) st).events).map
        (fun d => d.text_length)) = [(jsTrim input).length]
    ∧ sentTexts (analyzeText input (okTextEnv ts docId aid r d1 d2) st).events
        = [jsSubstring (jsTrim input) 3000] := by
  have hg : (jsTrim input == "") = false := beq_eq_false_iff_ne.mpr h
  have hlen : ((jsTrim input).length == 0) = false :=
    beq_eq_false_iff_ne.mpr (string_length_ne_zero _ h)
  refine ⟨?_, ?_, ?_⟩ <;>
    (cases d1 <;> cases d2 <;>
     simp [analyzeText, okTextEnv, saveTextAnalysisToDatabase, saveAnalysisToDatabase,
       mkAnalysisData, docInserts, anaInserts, sentTexts, hg, hlen, jsTruthyOptNat,
       jsOrOptNat] <;>
     split <;> simp [docInserts, anaInserts, sentTexts])

set_option maxRecDepth 10000 in
theorem c10_witness :
    ((docInserts (analyzeText longInput (okTextEnv 17 3 5 exResult .ok .ok)
        emptyStore).events).map (fun d => d.text_content)) = [some (jsTrim longInput)]
    ∧ ((anaInserts (analyzeText longInput (okTextEnv 17 3 5 exResult .ok .ok)
        emptyStore).events).map (fun d => d.text_length)) = [(jsTrim longInput).length]
    ∧ sentTexts (analyzeText longInput (okTextEnv 17 3 5 exResult .ok .ok)
        emptyStore).events = [jsSubstring (jsTrim longInput) 3000] :=
  c10_full_text_persisted longInput exResult 17 3 5 .ok .ok emptyStore (by decide)

lemma cacheMatch_cachePut_self (url : String) (r : Response) (c : Cache) :
    cacheMatch url (cachePut url r c) = some r := by
  have hnone : (c.filter (fun e => !(e.1 == url))).find? (fun e => e.1 == url) = none := by
    rw [List.find?_eq_none]
    intro x hx
    have hmem := (List.mem_filter.mp hx).2
    simp at hmem
    simp [hmem]
  simp [cacheMatch, cachePut, List.find?_append, hnone]

/-- Claim C7: for every non-API request whose URL is not in the cache and
whose network fetch resolves to `resp`, the dispatched response is `resp`,
and a copy is stored in the current cache if and only if `resp` has status
200 and type `'basic'`; otherwise the cache is unchanged (so opaque or
non-200 responses are passed through without caching). -/
theorem c7_cache_basic_200_only (req : Request) (cache : Cache) (resp : Response)
    (hapi : isApiUrl req.url = false) (hmiss : cacheMatch req.url cache = none) :
    (swDispatch req cache (.ok resp)).response = .ok resp
    ∧ (swDispatch req cache (.ok resp)).cache =
        (if resp.status == 200 && resp.type == "basic"
         then cachePut req.url resp cache else cache)
    ∧ (cacheMatch req.url (swDispatch req cache (.ok resp)).cache = some resp
        ↔ (resp.status = 200 ∧ resp.type = "basic")) := by
  by_cases hc : (resp.status == 200 && resp.type == "basic") = true
  · have hcp : resp.status = 200 ∧ resp.type = "basic" := by simpa using hc
    refine ⟨?_, ?_, ?_⟩
    · simp [swDispatch, fetchListener1, hapi, hmiss, hc]
    · simp [swDispatch, fetchListener1, hapi, hmiss, hc]
    · simp [swDispatch, fetchListener1, hapi, hmiss, hc, cacheMatch_cachePut_self,
        hcp.1, hcp.2]
  · have hcn : ¬ (resp.status = 200 ∧ resp.type = "basic") := by
      intro hp
      exact hc (by simp [hp.1, hp.2])
    refine ⟨?_, ?_, ?_⟩
    · simp [swDispatch, fetchListener1, hapi, hmiss, hc]
    · simp [swDispatch, fetchListener1, hapi, hmiss, hc]
    · simp [swDispatch, fetchListener1, hapi, hmiss, hc, hcn]

theorem c7_witness :
    (swDispatch ⟨"/static/app.css", "no-cors"⟩ installCache
        (.ok ⟨200, "basic", 7⟩)).response = .ok ⟨200, "basic", 7⟩
    ∧ (swDispatch ⟨"/static/app.css", "no-cors"⟩ installCache
        (.ok ⟨200, "basic", 7⟩)).cache =
        (if (200 : Nat) == 200 && "basic" == "basic"
         then cachePut "/static/app.css" ⟨200, "basic", 7⟩ installCache
         else installCache)
    ∧ (cacheMatch "/static/app.css" (swDispatch ⟨"/static/app.css", "no-cors"⟩
          installCache (.ok ⟨200, "basic", 7⟩)).cache = some ⟨200, "basic", 7⟩
        ↔ ((200 : Nat) = 200 ∧ "basic" = "basic")) :=
  c7_cache_basic_200_only ⟨"/static/app.css", "no-cors"⟩ installCache ⟨200, "basic", 7⟩
    (by decide) (by decide)

end MedDoc
